import Mathlib

/-
  Verification of the mesh post-processing pipeline of `image2mesh.py`
  (class `MeshConverter`): mesh loading with optional texture stripping,
  uniform scaling, decimation via an external engine, output-path
  resolution, and temp-file lifecycle.

  The external collaborators (trimesh load/export, pymeshlab) are modelled
  by an `Env` record of outcomes: each field states whether the
  corresponding external call succeeds or raises, and for the loader what
  mesh it returns.  The pipeline logic itself — branching, exception
  flow, naming, cleanup — is translated statement-for-statement from the
  Python source.
-/

namespace Image2Mesh

/-- Abstract material of a trimesh visual: only the `image` attribute is
relevant to the pipeline (`mesh.visual.material.image = None`). -/
structure Material where
  image : Option String
  deriving Repr, DecidableEq

/-- The `mesh.visual` part touched by `_load_mesh`: an optional material
and optional per-vertex UV coordinates. -/
structure Visual where
  material : Option Material
  uv : Option (List (ℚ × ℚ))
  deriving Repr, DecidableEq

/-- In-memory triangulated mesh: vertex positions, faces (index triples),
and the visual (texture/material) channel.  Coordinates are modelled as
rationals. -/
structure Mesh where
  vertices : List (ℚ × ℚ × ℚ)
  faces : List (ℕ × ℕ × ℕ)
  visual : Visual
  deriving Repr, DecidableEq

/-- Configuration of a `MeshConverter` instance, from `MeshConverter.__init__`:
`parent` and `base_stem` are `input_glb.parent` (as path components) and
`input_glb.stem`; `target_faces` is the optional `--faces` value
(a Python `int`, hence `Int`); `scale` the scale factor. -/
structure MeshConverter where
  parent : List String
  base_stem : String
  output_type : String
  target_faces : Option Int
  scale : ℚ
  deriving Repr, DecidableEq

/-- The `RuntimeError`s the Python code can raise or print, one per raise
site, carrying the stage identity that the wrapped message encodes. -/
inductive PipelineError where
  | loadError (msg : String)
  | scaleError
  | directExportError
  | tempExportError
  | engineUnavailable
  | engineLoadError
  | decimationError
  | finalExportError
  deriving Repr, DecidableEq

/-- Python truthiness of `self.target_faces` as used in
`if self.target_faces:` — `None` and `0` are falsy. -/
def pyTruthy : Option Int → Bool
  | none => false
  | some n => n != 0

/-- The texture-stripping block of `_load_mesh`: clears
`mesh.visual.material.image` (when a material is present) and
`mesh.visual.uv`. -/
def stripTexture (m : Mesh) : Mesh :=
  { m with visual :=
      { material := m.visual.material.map fun mat => { mat with image := none }
        uv := none } }

/-- `MeshConverter._load_mesh`: the external `trimesh.load` outcome is the
`loadResult` argument (an exception message or a mesh); any exception is
re-raised as a load error, otherwise texture is stripped iff requested. -/
def load_mesh (loadResult : Except String Mesh) (remove_texture : Bool) :
    Except PipelineError Mesh :=
  match loadResult with
  | .error e => .error (.loadError e)
  | .ok m => .ok (if remove_texture then stripTexture m else m)

/-- `trimesh.Trimesh.apply_scale`: multiply every vertex coordinate by `k`. -/
def apply_scale_mesh (m : Mesh) (k : ℚ) : Mesh :=
  { m with vertices := m.vertices.map fun v => (k * v.1, k * v.2.1, k * v.2.2) }

/-- `MeshConverter._apply_scale`: when `self.scale != 1.0` the underlying
scaling operation is invoked (the `scaleOk` flag models whether it raises);
when the factor is exactly 1 nothing is done.  The returned Bool records
whether the scaling operation was invoked on the underlying mesh. -/
def applyScale (c : MeshConverter) (m : Mesh) (scaleOk : Bool) :
    Except PipelineError (Mesh × Bool) :=
  if c.scale ≠ 1 then
    if scaleOk then .ok (apply_scale_mesh m c.scale, true)
    else .error .scaleError
  else .ok (m, false)

/-- The resolved destination: `self.subdir` and `self.output_path`, as
path-component lists. -/
structure OutputLocation where
  subdir : List String
  output_path : List String
  deriving Repr, DecidableEq

/-- `MeshConverter._update_output_name(face_count)`: Python-truthy
`self.target_faces` selects the requested-count naming (suffix on both
folder and file); otherwise the file stem uses `face_count` while the
folder is the bare input stem. -/
def updateOutputName (c : MeshConverter) (face_count : Int) : OutputLocation :=
  if pyTruthy c.target_faces then
    let new_stem := c.base_stem ++ "_faces" ++ toString (c.target_faces.getD 0)
    let subdir := c.parent ++ [new_stem]
    { subdir := subdir, output_path := subdir ++ [new_stem ++ "." ++ c.output_type] }
  else
    let new_stem := c.base_stem ++ "_faces" ++ toString face_count
    let subdir := c.parent ++ [c.base_stem]
    { subdir := subdir, output_path := subdir ++ [new_stem ++ "." ++ c.output_type] }

/-- The exact argument record of the
`meshing_decimation_quadric_edge_collapse` filter invocation in
`MeshConverter._decimate`. -/
structure DecimationFilterCall where
  filterName : String
  targetfacenum : Int
  targetperc : ℚ
  qualitythr : ℚ
  preserveboundary : Bool
  boundaryweight : ℚ
  optimalplacement : Bool
  preservenormal : Bool
  preservetopology : Bool
  planarquadric : Bool
  selected : Bool
  deriving Repr, DecidableEq

/-- The filter call `_decimate` makes for a given target face count, with
the literal keyword arguments of the source. -/
def decimateFilterCall (target_faces : Int) : DecimationFilterCall :=
  { filterName := "meshing_decimation_quadric_edge_collapse"
    targetfacenum := target_faces
    targetperc := 0
    qualitythr := 3 / 10
    preserveboundary := true
    boundaryweight := 1
    optimalplacement := true
    preservenormal := true
    preservetopology := true
    planarquadric := true
    selected := false }

/-- Outcomes of the external calls a `convert` run makes: what
`trimesh.load` returns, and whether each later external operation
succeeds (`true`) or raises (`false`). -/
structure Env where
  loadResult : Except String Mesh
  scaleOk : Bool
  tempExportOk : Bool
  pymeshlabAvailable : Bool
  engineLoadOk : Bool
  decimateOk : Bool
  finalExportOk : Bool
  directExportOk : Bool
  unlinkOk : Bool
  deriving Repr

/-- Observable outcome of one `MeshConverter.convert()` run:
`raised` is the exception propagated to the caller (`none` = normal
return), `printed` the errors caught and printed inside `convert` /
`_export_direct`, `tempCreated` / `tempFileLeft` the temp `.ply` file's
creation and end-of-run existence, `finalOutput` the path written by the
final or direct export, `outputFromDecimation` whether that output came
from the decimation branch's final export, `directExported` /
`tempExported` the mesh contents written by the direct / interchange
exports, and `filterCalls` the decimation filter invocations made. -/
structure RunOutcome where
  raised : Option PipelineError
  printed : List PipelineError
  tempCreated : Bool
  tempFileLeft : Bool
  finalOutput : Option (List String)
  outputFromDecimation : Bool
  directExported : Option Mesh
  tempExported : Option Mesh
  filterCalls : List DecimationFilterCall
  deriving Repr

/-- Outcome of a run in which nothing has happened yet. -/
def noRun : RunOutcome :=
  { raised := none, printed := [], tempCreated := false, tempFileLeft := false
    finalOutput := none, outputFromDecimation := false, directExported := none
    tempExported := none, filterCalls := [] }

/-- `MeshConverter.convert()` translated control-flow-faithfully:
load and scale run inside a try whose handler prints and returns; the
no-target branch runs `_export_direct` (whose export failure is printed,
not raised); the target branch runs `_export_and_load_temp` (temp export,
pymeshlab import, engine load with `finally: unlink`), `_decimate`,
`_update_output_name(self.target_faces)`, `_export_final`, each raising on
failure.  Note the `finally` that unlinks the temp file guards only the
engine-load `try`: an import failure leaves the temp file behind. -/
def convert (c : MeshConverter) (env : Env) : RunOutcome :=
  let remove_tex := c.target_faces.isSome
  match load_mesh env.loadResult remove_tex with
  | .error e => { noRun with raised := none, printed := [e] }
  | .ok mesh0 =>
    match applyScale c mesh0 env.scaleOk with
    | .error e => { noRun with raised := none, printed := [e] }
    | .ok (mesh, _invoked) =>
      match c.target_faces with
      | none =>
        let loc := updateOutputName c (mesh.faces.length : Int)
        if env.directExportOk then
          { noRun with finalOutput := some loc.output_path, directExported := some mesh }
        else
          { noRun with printed := [.directExportError] }
      | some t =>
        if !env.tempExportOk then
          { noRun with raised := some .tempExportError }
        else if !env.pymeshlabAvailable then
          { noRun with raised := some .engineUnavailable, tempCreated := true
                       tempFileLeft := true, tempExported := some mesh }
        else if !env.engineLoadOk then
          { noRun with raised := some .engineLoadError, tempCreated := true
                       tempFileLeft := !env.unlinkOk, tempExported := some mesh }
        else if !env.decimateOk then
          { noRun with raised := some .decimationError, tempCreated := true
                       tempFileLeft := !env.unlinkOk, tempExported := some mesh
                       filterCalls := [decimateFilterCall t] }
        else
          let loc := updateOutputName c t
          if env.finalExportOk then
            { noRun with finalOutput := some loc.output_path, outputFromDecimation := true
                         tempCreated := true, tempFileLeft := !env.unlinkOk
                         tempExported := some mesh, filterCalls := [decimateFilterCall t] }
          else
            { noRun with raised := some .finalExportError, tempCreated := true
                         tempFileLeft := !env.unlinkOk, tempExported := some mesh
                         filterCalls := [decimateFilterCall t] }

/-- The mesh `convert` holds after the scale stage, when scaling succeeds. -/
def scaledMesh (c : MeshConverter) (m : Mesh) : Mesh :=
  if c.scale ≠ 1 then apply_scale_mesh m c.scale else m

theorem applyScale_true_eq (c : MeshConverter) (m : Mesh) :
    applyScale c m true = .ok (scaledMesh c m, decide (c.scale ≠ 1)) := by
  unfold applyScale scaledMesh
  split <;> simp_all

theorem scaledMesh_faces (c : MeshConverter) (m : Mesh) :
    (scaledMesh c m).faces = m.faces := by
  unfold scaledMesh apply_scale_mesh
  split <;> rfl

theorem scaledMesh_visual (c : MeshConverter) (m : Mesh) :
    (scaledMesh c m).visual = m.visual := by
  unfold scaledMesh apply_scale_mesh
  split <;> rfl

/-! ### Concrete sample inputs used by witnesses and counterexamples -/

/-- A small textured triangle mesh. -/
def sampleMesh : Mesh :=
  { vertices := [(1, 2, 3), (4, 5, 6), (7, 8, 9)]
    faces := [(0, 1, 2)]
    visual := { material := some { image := some "tex.png" }
                uv := some [(0, 0), (1, 0), (0, 1)] } }

/-- A mesh that parses to no vertices and no faces. -/
def emptyMesh : Mesh :=
  { vertices := [], faces := [], visual := { material := none, uv := none } }

/-- A converter for `.../home/user/bunny.glb` with output type `obj`,
scale 1, and the given target face count. -/
def sampleConverter (tf : Option Int) : MeshConverter :=
  { parent := ["home", "user"], base_stem := "bunny", output_type := "obj"
    target_faces := tf, scale := 1 }

/-- An environment in which every external call succeeds and the loader
returns `m`. -/
def okEnv (m : Mesh) : Env :=
  { loadResult := .ok m, scaleOk := true, tempExportOk := true
    pymeshlabAvailable := true, engineLoadOk := true, decimateOk := true
    finalExportOk := true, directExportOk := true, unlinkOk := true }

/-- Like `okEnv`, but the `import pymeshlab` fails. -/
def noEngineEnv (m : Mesh) : Env :=
  { okEnv m with pymeshlabAvailable := false }

/-- Like `okEnv`, but the decimation filter raises. -/
def decimateFailEnv (m : Mesh) : Env :=
  { okEnv m with decimateOk := false }

/-- Like `okEnv sampleMesh`, but `trimesh.load` raises. -/
def loadFailEnv : Env :=
  { okEnv sampleMesh with loadResult := .error "read failure" }

/-! ### Claim theorems -/

/-- **C1.** For every conversion in which decimation was requested with an
explicit positive target face count `t`, the resolved output location
places the file in subfolder `{inputStem}_faces{t}` under the input file's
parent directory, with filename `{inputStem}_faces{t}.{outputType}` — the
resolver produces these names for an arbitrary engine-produced face count
`fc`, and a successful run's final output lands at that path. -/
theorem convert_decimation_naming (c : MeshConverter) (env : Env) (t fc : Int) (m : Mesh)
    (ht : c.target_faces = some t) (hpos : 0 < t)
    (hm : env.loadResult = .ok m) (hs : env.scaleOk = true) (hte : env.tempExportOk = true)
    (hav : env.pymeshlabAvailable = true) (hel : env.engineLoadOk = true)
    (hde : env.decimateOk = true) (hfe : env.finalExportOk = true) :
    updateOutputName c fc =
      { subdir := c.parent ++ [c.base_stem ++ "_faces" ++ toString t]
        output_path := c.parent ++ [c.base_stem ++ "_faces" ++ toString t,
          c.base_stem ++ "_faces" ++ toString t ++ "." ++ c.output_type] } ∧
    (convert c env).finalOutput =
      some (c.parent ++ [c.base_stem ++ "_faces" ++ toString t,
        c.base_stem ++ "_faces" ++ toString t ++ "." ++ c.output_type]) := by
  have hne : t ≠ 0 := hpos.ne'
  have hupd : ∀ fc' : Int, updateOutputName c fc' =
      { subdir := c.parent ++ [c.base_stem ++ "_faces" ++ toString t]
        output_path := c.parent ++ [c.base_stem ++ "_faces" ++ toString t,
          c.base_stem ++ "_faces" ++ toString t ++ "." ++ c.output_type] } := by
    intro fc'
    simp [updateOutputName, pyTruthy, ht, hne]
  refine ⟨hupd fc, ?_⟩
  simp only [convert, load_mesh, hm, ht, hs, hte, hav, hel, hde, hfe,
    applyScale_true_eq, Option.isSome_some, if_true, Bool.not_true, Bool.false_eq_true,
    if_false, hupd t]

/-- Witness for C1 at `bunny`, target 5000, output type `obj`: the resolver
ignores the engine-produced count (here 1234) and the run's output is
`home/user/bunny_faces5000/bunny_faces5000.obj`. -/
theorem convert_decimation_naming_witness :
    updateOutputName (sampleConverter (some 5000)) 1234 =
      { subdir := ["home", "user", "bunny_faces5000"]
        output_path := ["home", "user", "bunny_faces5000", "bunny_faces5000.obj"] } ∧
    (convert (sampleConverter (some 5000)) (okEnv sampleMesh)).finalOutput =
      some ["home", "user", "bunny_faces5000", "bunny_faces5000.obj"] := by
  have h := convert_decimation_naming (sampleConverter (some 5000)) (okEnv sampleMesh)
    5000 1234 sampleMesh rfl (by decide) rfl rfl rfl rfl rfl rfl rfl
  exact h

/-- **C2.** For every conversion with no decimation requested, the output
filename stem is `{inputStem}_faces{F}` with `F` the actual face count of
the loaded (and possibly scaled) mesh, while the subfolder is the bare
input stem: the final path is
`parentDir/inputStem/{inputStem}_faces{F}.{outputType}`. -/
theorem convert_direct_naming (c : MeshConverter) (env : Env) (m : Mesh)
    (ht : c.target_faces = none)
    (hm : env.loadResult = .ok m) (hs : env.scaleOk = true) (hd : env.directExportOk = true) :
    updateOutputName c (m.faces.length : Int) =
      { subdir := c.parent ++ [c.base_stem]
        output_path := c.parent ++ [c.base_stem,
          c.base_stem ++ "_faces" ++ toString (m.faces.length : Int) ++ "." ++ c.output_type] } ∧
    (convert c env).finalOutput =
      some (c.parent ++ [c.base_stem,
        c.base_stem ++ "_faces" ++ toString (m.faces.length : Int) ++ "." ++ c.output_type]) := by
  have hupd : updateOutputName c (m.faces.length : Int) =
      { subdir := c.parent ++ [c.base_stem]
        output_path := c.parent ++ [c.base_stem,
          c.base_stem ++ "_faces" ++ toString (m.faces.length : Int) ++ "." ++ c.output_type] } := by
    simp [updateOutputName, pyTruthy, ht]
  refine ⟨hupd, ?_⟩
  simp only [convert, load_mesh, hm, ht, hs, hd, applyScale_true_eq, Option.isSome_none,
    Bool.false_eq_true, if_false, if_true, scaledMesh_faces, hupd]

/-- Witness for C2 at `bunny` with a 1-face mesh and output type `obj`:
the output is `home/user/bunny/bunny_faces1.obj`. -/
theorem convert_direct_naming_witness :
    updateOutputName (sampleConverter none) ((sampleMesh.faces.length : Int)) =
      { subdir := ["home", "user", "bunny"]
        output_path := ["home", "user", "bunny", "bunny_faces1.obj"] } ∧
    (convert (sampleConverter none) (okEnv sampleMesh)).finalOutput =
      some ["home", "user", "bunny", "bunny_faces1.obj"] := by
  have h := convert_direct_naming (sampleConverter none) (okEnv sampleMesh) sampleMesh
    rfl rfl rfl rfl
  exact h

/-- **C3, counterexample.** The claim says the temp `.ply` file is deleted
on *every* exit path of a decimation run that created it.  But when the
`import pymeshlab` fails after the temp file was written, the
`finally: temp_path.unlink()` (which guards only the engine-load `try`)
never runs: here the run created the temp file, raised the
engine-unavailable error, and left the temp file behind. -/
theorem temp_cleanup_counterexample :
    (convert (sampleConverter (some 100)) (noEngineEnv sampleMesh)).tempCreated = true ∧
    (convert (sampleConverter (some 100)) (noEngineEnv sampleMesh)).tempFileLeft = true ∧
    (convert (sampleConverter (some 100)) (noEngineEnv sampleMesh)).raised =
      some PipelineError.engineUnavailable := by
  refine ⟨rfl, rfl, rfl⟩

/-- **C3, amended.** Provided the decimation engine import succeeds and the
deletion call itself does not fail, the temp file is absent once the run
ends on every exit path (successful engine load, failed engine load, and
any later decimation or export failure); when the engine import fails
after the temp file was written, the temp file is not deleted. -/
theorem temp_cleanup_amended (c : MeshConverter) (env : Env)
    (hav : env.pymeshlabAvailable = true) (hun : env.unlinkOk = true) :
    (convert c env).tempFileLeft = false := by
  rcases hL : env.loadResult with e | m <;>
  rcases htf : c.target_faces with _ | t <;>
  by_cases hs : env.scaleOk = true <;>
  by_cases hsc : c.scale = 1 <;>
  by_cases hte : env.tempExportOk = true <;>
  by_cases hel : env.engineLoadOk = true <;>
  by_cases hdk : env.decimateOk = true <;>
  by_cases hfe : env.finalExportOk = true <;>
  by_cases hdir : env.directExportOk = true <;>
  simp_all [convert, load_mesh, applyScale, noRun]

/-- Witness for the amended C3: a run whose decimation step raises still
ends with the temp file absent (engine import succeeded, unlink worked). -/
theorem temp_cleanup_amended_witness :
    (convert (sampleConverter (some 100)) (decimateFailEnv sampleMesh)).tempFileLeft = false :=
  temp_cleanup_amended (sampleConverter (some 100)) (decimateFailEnv sampleMesh) rfl rfl

/-- **C4.** Texture is stripped at load time iff a target face count was
requested: the mesh written to the temp interchange file (decimation
branch) carries the stripped visual — UV cleared, material image cleared —
exactly when `target_faces` is set, while the direct-export branch writes
the mesh with its loaded visual intact exactly when `target_faces` is
absent. -/
theorem convert_texture_policy (c : MeshConverter) (env : Env) (m : Mesh)
    (hm : env.loadResult = .ok m) (hs : env.scaleOk = true)
    (hd : env.directExportOk = true) (hte : env.tempExportOk = true) :
    (convert c env).tempExported.map Mesh.visual =
      c.target_faces.map (fun _ => (stripTexture m).visual) ∧
    (convert c env).directExported.map Mesh.visual =
      (if c.target_faces.isSome then none else some m.visual) ∧
    (stripTexture m).visual.uv = none ∧
    (stripTexture m).visual.material =
      m.visual.material.map (fun mat => { mat with image := none }) := by
  refine ⟨?_, ?_, rfl, rfl⟩ <;>
  · cases htf : c.target_faces with
    | none =>
      simp only [convert, load_mesh, hm, hs, hd, htf, Option.isSome_none,
        Bool.false_eq_true, if_false, if_true, applyScale_true_eq]
      simp [noRun, scaledMesh_visual]
    | some t =>
      simp only [convert, load_mesh, hm, hs, hte, htf, Option.isSome_some,
        if_true, Bool.not_true, Bool.false_eq_true, if_false, applyScale_true_eq]
      by_cases hav : env.pymeshlabAvailable = true <;>
      by_cases hel : env.engineLoadOk = true <;>
      by_cases hdk : env.decimateOk = true <;>
      by_cases hfe : env.finalExportOk = true <;>
      simp [hav, hel, hdk, hfe, noRun, scaledMesh_visual]

/-- Witness for C4 on the textured sample mesh with target 100: the temp
export carries the stripped visual, no direct export happens, and the
stripped visual indeed has no UV and no material image. -/
theorem convert_texture_policy_witness :
    (convert (sampleConverter (some 100)) (okEnv sampleMesh)).tempExported.map Mesh.visual =
      (some (100 : Int)).map (fun _ => (stripTexture sampleMesh).visual) ∧
    (convert (sampleConverter (some 100)) (okEnv sampleMesh)).directExported.map Mesh.visual =
      (if (some (100 : Int)).isSome then none else some sampleMesh.visual) ∧
    (stripTexture sampleMesh).visual.uv = none ∧
    (stripTexture sampleMesh).visual.material =
      sampleMesh.visual.material.map (fun mat => { mat with image := none }) := by
  have h := convert_texture_policy (sampleConverter (some 100)) (okEnv sampleMesh) sampleMesh
    rfl rfl rfl rfl
  exact h

/-- **C5.** Every decimation run that reaches the simplification step
invokes the quadric-edge-collapse filter exactly once, with exactly the
parameters of the source: `targetfacenum` the requested count,
`targetperc = 0`, quality threshold `3/10`, boundary preserved with weight
1, optimal placement, normals and topology preserved, planar quadric on,
and `selected = false` (whole mesh). -/
theorem convert_decimation_parameters (c : MeshConverter) (env : Env) (t : Int) (m : Mesh)
    (ht : c.target_faces = some t)
    (hm : env.loadResult = .ok m) (hs : env.scaleOk = true) (hte : env.tempExportOk = true)
    (hav : env.pymeshlabAvailable = true) (hel : env.engineLoadOk = true) :
    (convert c env).filterCalls = [decimateFilterCall t] ∧
    decimateFilterCall t =
      { filterName := "meshing_decimation_quadric_edge_collapse"
        targetfacenum := t
        targetperc := 0
        qualitythr := 3 / 10
        preserveboundary := true
        boundaryweight := 1
        optimalplacement := true
        preservenormal := true
        preservetopology := true
        planarquadric := true
        selected := false } := by
  refine ⟨?_, rfl⟩
  simp only [convert, load_mesh, hm, hs, hte, hav, hel, ht, Option.isSome_some,
    if_true, Bool.not_true, Bool.false_eq_true, if_false, applyScale_true_eq]
  by_cases hdk : env.decimateOk = true <;>
  by_cases hfe : env.finalExportOk = true <;>
  simp [hdk, hfe, noRun]

/-- Witness for C5 with target 100: the run makes exactly the one filter
call with the literal parameter record. -/
theorem convert_decimation_parameters_witness :
    (convert (sampleConverter (some 100)) (okEnv sampleMesh)).filterCalls =
      [decimateFilterCall 100] ∧
    decimateFilterCall 100 =
      { filterName := "meshing_decimation_quadric_edge_collapse"
        targetfacenum := 100
        targetperc := 0
        qualitythr := 3 / 10
        preserveboundary := true
        boundaryweight := 1
        optimalplacement := true
        preservenormal := true
        preservetopology := true
        planarquadric := true
        selected := false } := by
  have h := convert_decimation_parameters (sampleConverter (some 100)) (okEnv sampleMesh)
    100 sampleMesh rfl rfl rfl rfl rfl rfl
  exact h

/-- **C6, counterexample.** The claim says every stage failure surfaces to
the external caller and none is swallowed so that the run appears to
complete.  But a load failure is caught inside `convert`, printed, and the
method returns normally: the caller sees no exception (`raised = none`)
even though nothing was produced. -/
theorem error_policy_counterexample :
    (convert (sampleConverter none) loadFailEnv).raised = none ∧
    (convert (sampleConverter none) loadFailEnv).printed =
      [PipelineError.loadError "read failure"] ∧
    (convert (sampleConverter none) loadFailEnv).finalOutput = none :=
  ⟨rfl, rfl, rfl⟩

set_option maxHeartbeats 1600000 in
/-- **C6, amended.** Every stage failure still aborts the remaining
pipeline — whenever an error is raised or printed, no final output is
produced — but the reporting is split: failures in the decimation branch
(temp export, missing engine, engine load, decimation, final export)
propagate to the caller as exceptions identifying the stage, while load,
scale, and direct-export failures are caught, printed, and the call
returns normally (a printed failure never also raises, and a raised
failure can only come from the decimation branch). -/
theorem error_policy_amended (c : MeshConverter) (env : Env) :
    ((convert c env).raised ≠ none ∨ (convert c env).printed ≠ [] →
      (convert c env).finalOutput = none) ∧
    ((convert c env).printed ≠ [] → (convert c env).raised = none) ∧
    ((convert c env).raised ≠ none → c.target_faces.isSome = true) := by
  rcases hL : env.loadResult with e | m
  · simp [convert, load_mesh, hL, noRun]
  · rcases htf : c.target_faces with _ | t
    · by_cases hs : env.scaleOk = true <;>
      by_cases hsc : c.scale = 1 <;>
      by_cases hdir : env.directExportOk = true <;>
      simp_all [convert, load_mesh, applyScale, noRun]
    · by_cases hs : env.scaleOk = true <;>
      by_cases hsc : c.scale = 1 <;>
      by_cases hte : env.tempExportOk = true <;>
      by_cases hp : env.pymeshlabAvailable = true <;>
      by_cases hel : env.engineLoadOk = true <;>
      by_cases hdk : env.decimateOk = true <;>
      by_cases hfe : env.finalExportOk = true <;>
      simp_all [convert, load_mesh, applyScale, noRun]

/-- Witness for the amended C6: on a run whose load fails, the pipeline
aborts (no output) and the call returns without raising. -/
theorem error_policy_amended_witness :
    (convert (sampleConverter none) loadFailEnv).finalOutput = none ∧
    (convert (sampleConverter none) loadFailEnv).raised = none := by
  have h := error_policy_amended (sampleConverter none) loadFailEnv
  refine ⟨h.1 (Or.inr ?_), h.2.1 ?_⟩ <;> decide

/-- **C7.** In a decimation run, if the engine is unavailable (the
pymeshlab import fails) or the simplification filter raises, the run
raises the corresponding error to the caller and writes nothing at the
final location: un-decimated output is never produced as a fallback. -/
theorem convert_decimation_failure_no_fallback (c : MeshConverter) (env : Env) (t : Int)
    (m : Mesh) (ht : c.target_faces = some t)
    (hm : env.loadResult = .ok m) (hs : env.scaleOk = true) (hte : env.tempExportOk = true)
    (hfail : env.pymeshlabAvailable = false ∨
      (env.engineLoadOk = true ∧ env.decimateOk = false)) :
    ((convert c env).raised = some PipelineError.engineUnavailable ∨
      (convert c env).raised = some PipelineError.decimationError) ∧
    (convert c env).finalOutput = none := by
  rcases hfail with hav | ⟨hel, hdk⟩ <;>
  by_cases hp : env.pymeshlabAvailable = true <;>
  by_cases hsc : c.scale = 1 <;>
  simp_all [convert, load_mesh, applyScale, noRun]

/-- Witness for C7: with pymeshlab missing, the run raises the
engine-unavailable error and produces no output. -/
theorem convert_decimation_failure_no_fallback_witness :
    ((convert (sampleConverter (some 100)) (noEngineEnv sampleMesh)).raised =
        some PipelineError.engineUnavailable ∨
      (convert (sampleConverter (some 100)) (noEngineEnv sampleMesh)).raised =
        some PipelineError.decimationError) ∧
    (convert (sampleConverter (some 100)) (noEngineEnv sampleMesh)).finalOutput = none := by
  have h := convert_decimation_failure_no_fallback (sampleConverter (some 100))
    (noEngineEnv sampleMesh) 100 sampleMesh rfl rfl rfl rfl (Or.inl rfl)
  exact h

/-- **C8.** Applying the scale stage with factor exactly 1 is a no-op:
the returned mesh is the input mesh itself (vertex-for-vertex identical)
and the underlying scaling operation is not invoked (the returned flag is
`false`), regardless of whether the scaling operation would have
succeeded. -/
theorem apply_scale_identity (c : MeshConverter) (m : Mesh) (scaleOk : Bool)
    (h : c.scale = 1) :
    applyScale c m scaleOk = .ok (m, false) := by
  simp [applyScale, h]

/-- Witness for C8: on the sample converter (scale 1) and sample mesh,
the scale stage returns the mesh unchanged without invoking scaling. -/
theorem apply_scale_identity_witness :
    applyScale (sampleConverter none) sampleMesh false = .ok (sampleMesh, false) :=
  apply_scale_identity (sampleConverter none) sampleMesh false rfl

/-- **C9, counterexample.** The claim says a file that parses successfully
but contains no faces or vertices is a load error.  But `_load_mesh` has
no emptiness check: when the underlying loader returns an empty mesh
without raising, the load succeeds and returns that empty mesh. -/
theorem load_empty_success_counterexample :
    load_mesh (Except.ok emptyMesh) false = Except.ok emptyMesh ∧
    emptyMesh.faces = [] ∧ emptyMesh.vertices = [] :=
  ⟨rfl, rfl, rfl⟩

/-- **C9, amended.** The mesh load operation fails with a load error if
and only if the underlying loader raises (unreadable or malformed file);
a file that parses to an empty or degenerate mesh is returned as a
successful load, not an error. -/
theorem load_mesh_error_iff (r : Except String Mesh) (rt : Bool) :
    (∃ e, load_mesh r rt = Except.error e) ↔ (∃ s, r = Except.error s) := by
  cases r with
  | error s => simp [load_mesh]
  | ok m => simp [load_mesh]

/-- **C10.** With target face count 0, the pipeline takes the decimation
branch (the target is not `None`, so the filter is invoked with
`targetfacenum = 0`), yet the naming falls under the no-decimation rule
(Python truthiness treats 0 as absent): the subfolder is the bare input
stem while the filename stem is `{inputStem}_faces0`, disagreeing with the
requested-count naming that governs every positive target. -/
theorem convert_target_zero (c : MeshConverter) (env : Env) (m : Mesh)
    (ht : c.target_faces = some 0)
    (hm : env.loadResult = .ok m) (hs : env.scaleOk = true) (hte : env.tempExportOk = true)
    (hav : env.pymeshlabAvailable = true) (hel : env.engineLoadOk = true)
    (hde : env.decimateOk = true) (hfe : env.finalExportOk = true) :
    (convert c env).filterCalls = [decimateFilterCall 0] ∧
    updateOutputName c 0 =
      { subdir := c.parent ++ [c.base_stem]
        output_path := c.parent ++ [c.base_stem,
          c.base_stem ++ "_faces" ++ toString (0 : Int) ++ "." ++ c.output_type] } ∧
    (convert c env).finalOutput =
      some (c.parent ++ [c.base_stem,
        c.base_stem ++ "_faces" ++ toString (0 : Int) ++ "." ++ c.output_type]) := by
  have hupd : updateOutputName c 0 =
      { subdir := c.parent ++ [c.base_stem]
        output_path := c.parent ++ [c.base_stem,
          c.base_stem ++ "_faces" ++ toString (0 : Int) ++ "." ++ c.output_type] } := by
    simp [updateOutputName, pyTruthy, ht]
  refine ⟨?_, hupd, ?_⟩ <;>
  simp only [convert, load_mesh, hm, ht, hs, hte, hav, hel, hde, hfe, applyScale_true_eq,
    Option.isSome_some, if_true, Bool.not_true, Bool.false_eq_true, if_false, hupd]

/-- Witness for C10 at `bunny` with target 0: the filter is called with
`targetfacenum = 0` and the output is `home/user/bunny/bunny_faces0.obj` —
bare-stem folder, `_faces0` file stem. -/
theorem convert_target_zero_witness :
    (convert (sampleConverter (some 0)) (okEnv sampleMesh)).filterCalls =
      [decimateFilterCall 0] ∧
    updateOutputName (sampleConverter (some 0)) 0 =
      { subdir := ["home", "user", "bunny"]
        output_path := ["home", "user", "bunny", "bunny_faces0.obj"] } ∧
    (convert (sampleConverter (some 0)) (okEnv sampleMesh)).finalOutput =
      some ["home", "user", "bunny", "bunny_faces0.obj"] := by
  have h := convert_target_zero (sampleConverter (some 0)) (okEnv sampleMesh) sampleMesh
    rfl rfl rfl rfl rfl rfl rfl rfl
  exact h

end Image2Mesh
